import Mathlib

/-!
Verification development for `scripts/analyze_trader_profile.py`.

The analyzer consumes three lists of CSV rows (orders, wallet history,
executions) and produces a nested "trader profile" report.  We embed the
analysis function shallowly: every CSV row becomes a structure whose numeric
fields carry the result of Python's `float(...)` parse (`none` when the parse
raises) and whose timestamp field carries the result of
`datetime.fromisoformat` (`none` when missing or unparseable).  Real-number
arithmetic is modelled over `ℚ`; Python's `int(...)` truncation and
`round(x, n)` banker's rounding are modelled explicitly.

The Python function body binds the local `timestamps` only inside
`if filled_orders:` (line 73) yet reads it at line 136, and binds
`daily_trades` only inside the frequency block (line 143) yet reads it at
line 258; consequently the function raises `NameError` unless at least two
timestamps parse.  The embedding returns `Except String Profile` and takes
the `.error` branch exactly where the Python raises.
-/

namespace TraderAnalyzer

/-- Timestamp as produced by `datetime.fromisoformat` after the
`'Z' -> '+00:00'` normalization (line 77): the instant in seconds together
with the `hour` and `weekday()` attributes of the parsed datetime. -/
structure Dt where
  epochSec : ℚ
  hour : Fin 24
  wday : Fin 7
deriving DecidableEq

/-- One CSV row of the orders file.  `orderQty` is the result of
`float(o.get('orderQty', 0))` (`none` when the conversion raises; a missing
field yields `some 0` via the Python default).  `timestamp` is the parse
result of the timestamp string (`none` when missing or unparseable). -/
structure Order where
  ordStatus : Option String
  ordType : Option String
  orderQty : Option ℚ
  timestamp : Option Dt
deriving DecidableEq

/-- One CSV row of the wallet-history file.  `amount` is the result of
`float(entry.get('amount', 0))`, `none` when the conversion raises. -/
structure WalletEntry where
  transactType : Option String
  amount : Option ℚ
deriving DecidableEq

/-- One CSV row of the executions file; the analyzer never reads it, so the
raw key/value cells suffice. -/
structure Execution where
  fields : List (String × String)
deriving DecidableEq

/-- Python `int(q)`: truncation toward zero. -/
def pyInt (q : ℚ) : ℤ :=
  if 0 ≤ q then ⌊q⌋ else ⌈q⌉

/-- Round to the nearest integer, ties to even (Python's `round`). -/
def roundHalfEven (q : ℚ) : ℤ :=
  let n := ⌊q⌋
  let frac := q - n
  if frac < 1 / 2 then n
  else if 1 / 2 < frac then n + 1
  else if n % 2 = 0 then n else n + 1

/-- Python `round(q, d)`. -/
def pyRound (d : ℕ) (q : ℚ) : ℚ :=
  (roundHalfEven (q * 10 ^ d) : ℚ) / 10 ^ d

/-- Increment the count of key `k` in an insertion-ordered counting list
(the behaviour of `defaultdict(int)` under `+= 1`). -/
def bump {α : Type} [DecidableEq α] : List (α × ℕ) → α → List (α × ℕ)
  | [], k => [(k, 1)]
  | (k', n) :: rest, k =>
      if k = k' then (k', n + 1) :: rest else (k', n) :: bump rest k

/-- Count occurrences of each key, keys kept in first-seen order. -/
def countKeys {α : Type} [DecidableEq α] (ks : List α) : List (α × ℕ) :=
  ks.foldl bump []

/-- Python `d.get(k, default)` on a counting list. -/
def lookupD {α : Type} [DecidableEq α] : List (α × ℕ) → α → ℕ → ℕ
  | [], _, d => d
  | (k', n) :: rest, k, d => if k = k' then n else lookupD rest k d

/-- Python `max(d, key=d.get)`: the first key attaining the maximal count
(later keys replace the running best only when strictly greater). -/
def argmaxFirst {α : Type} : List (α × ℕ) → α → α
  | [], d => d
  | kv :: rest, _ =>
      (rest.foldl (fun best x => if best.2 < x.2 then x else best) kv).1

/-- Python `min` over a nonempty list of rationals (0 on the empty list,
which the analyzer never reaches). -/
def listMinQ : List ℚ → ℚ
  | [] => 0
  | h :: t => t.foldl min h

/-- Python `max` over a nonempty list of rationals (0 on the empty list,
which the analyzer never reaches). -/
def listMaxQ : List ℚ → ℚ
  | [] => 0
  | h :: t => t.foldl max h

/-- Insert into an ascending list, keeping it ascending. -/
def insertSorted (x : ℚ) : List ℚ → List ℚ
  | [] => [x]
  | y :: ys => if x ≤ y then x :: y :: ys else y :: insertSorted x ys

/-- Python `sorted` on rationals (insertion sort; the ascending rearrangement
of a multiset of rationals is unique, so this agrees with Timsort). -/
def sortQ (l : List ℚ) : List ℚ :=
  l.foldr insertSorted []

/-- Differences of consecutive elements (`sorted_ts[i] - sorted_ts[i-1]`). -/
def gaps : List ℚ → List ℚ
  | a :: b :: rest => (b - a) :: gaps (b :: rest)
  | _ => []

/-- Python's substring test `needle in hay`. -/
def strContains (hay needle : String) : Bool :=
  (List.range (hay.data.length + 1)).any fun i => needle.data.isPrefixOf (hay.data.drop i)

/-- The `basic_stats` group (lines 64-70). -/
structure BasicStats where
  total_orders : ℕ
  filled_orders : ℕ
  canceled_orders : ℕ
  fill_rate : ℚ
  order_types : List (String × ℕ)
deriving DecidableEq

/-- The `trading_patterns` group (lines 97-100). -/
structure TradingPatterns where
  hour_distribution : List (ℕ × ℕ)
  weekday_distribution : List (ℕ × ℕ)
  most_active_hour : ℕ
  most_active_day : String
deriving DecidableEq

/-- The `risk_preference` group (lines 126-133). -/
structure RiskPreference where
  avg_order_size : ℚ
  max_order_size : ℚ
  min_order_size : ℚ
  large_order_ratio : ℚ
  risk_score : ℤ
  risk_level : String
deriving DecidableEq

/-- The `trading_frequency` group (lines 158-164). -/
structure TradingFrequency where
  total_trading_days : ℤ
  daily_avg_trades : ℚ
  avg_trade_interval_minutes : ℚ
  frequency_score : ℤ
  frequency_level : String
deriving DecidableEq

/-- The `discipline_scores` group (lines 181-188). -/
structure DisciplineScores where
  limit_order_ratio : ℚ
  cancel_ratio : ℚ
  discipline_score : ℤ
  patience_score : ℤ
  discipline_level : String
  patience_level : String
deriving DecidableEq

/-- The `profit_factor` output cell (line 222): a finite rounded ratio, or
the non-numeric infinity marker string written when `avg_loss` is 0. -/
inductive ProfitFactor
  | num : ℚ → ProfitFactor
  | infty : ProfitFactor
deriving DecidableEq

/-- The `pnl_analysis` group (lines 214-223). -/
structure PnlAnalysis where
  total_pnl_btc : ℚ
  total_trades : ℕ
  winning_trades : ℕ
  losing_trades : ℕ
  win_rate : ℚ
  avg_win_btc : ℚ
  avg_loss_btc : ℚ
  profit_factor : ProfitFactor
deriving DecidableEq

/-- The `summary` group (lines 244-261). -/
structure Summary where
  trader_type : String
  risk_level : String
  frequency_level : String
  discipline_level : String
  overall_score : ℚ
  advice : List String
deriving DecidableEq

/-- The profile mapping.  The Python dict is initialized at lines 45-52 with
the keys basic_stats, risk_preference, trading_frequency, discipline_scores,
trading_patterns and summary all present; `none` in an `Option` field below
means that key still maps to the initial empty sub-dict `{}`, except for
`pnl_analysis`, whose key is only created at line 214 (`none` = key absent). -/
structure Profile where
  basic_stats : BasicStats
  risk_preference : Option RiskPreference
  trading_frequency : Option TradingFrequency
  discipline_scores : DisciplineScores
  trading_patterns : Option TradingPatterns
  pnl_analysis : Option PnlAnalysis
  summary : Summary
deriving DecidableEq

/-- Keys present in the returned Python dict: the six initial keys of lines
45-52, plus `pnl_analysis` when line 214 executed. -/
def profileKeys (p : Profile) : List String :=
  ["basic_stats", "risk_preference", "trading_frequency", "discipline_scores",
    "trading_patterns", "summary"] ++
    (if p.pnl_analysis.isSome then ["pnl_analysis"] else [])

/-- Line 56: `[o for o in orders if o.get('ordStatus') == 'Filled']`. -/
def filledOrders (orders : List Order) : List Order :=
  orders.filter fun o => o.ordStatus == some "Filled"

/-- Line 57: `[o for o in orders if o.get('ordStatus') == 'Canceled']`. -/
def canceledOrders (orders : List Order) : List Order :=
  orders.filter fun o => o.ordStatus == some "Canceled"

/-- Lines 60-62: `order_types[o.get('ordType', 'Unknown')] += 1`. -/
def orderTypeCounts (orders : List Order) : List (String × ℕ) :=
  countKeys (orders.map fun o => o.ordType.getD "Unknown")

/-- Lines 54-70: the `basic_stats` block. -/
def mkBasicStats (orders : List Order) : BasicStats :=
  let total_orders := orders.length
  { total_orders
    filled_orders := (filledOrders orders).length
    canceled_orders := (canceledOrders orders).length
    fill_rate :=
      if 0 < total_orders then
        pyRound 2 (((filledOrders orders).length : ℚ) / (total_orders : ℚ) * 100)
      else 0
    order_types := orderTypeCounts orders }

/-- Lines 74-80: timestamps of filled orders that parse, in order; records
whose timestamp fails to parse are silently skipped. -/
def parsedTimestamps (orders : List Order) : List Dt :=
  (filledOrders orders).filterMap fun o => o.timestamp

/-- Line 100: the weekday label array. -/
def weekdayNames : List String :=
  ["Mon", "Tue", "Wed", "Thu", "Fri", "Sat", "Sun"]

/-- Lines 82-100: the `trading_patterns` block, populated only when at least
one timestamp parsed. -/
def mkTradingPatterns (ts : List Dt) : Option TradingPatterns :=
  if ts = [] then none
  else
    let hour_distribution := countKeys (ts.map fun t => (t.hour : ℕ))
    let weekday_distribution := countKeys (ts.map fun t => (t.wday : ℕ))
    some { hour_distribution
           weekday_distribution
           most_active_hour := argmaxFirst hour_distribution 0
           most_active_day := weekdayNames.getD (argmaxFirst weekday_distribution 0) "" }

/-- Lines 104-111: absolute filled-order sizes that parse and are nonzero. -/
def validOrderSizes (orders : List Order) : List ℚ :=
  (filledOrders orders).filterMap fun o =>
    match o.orderQty with
    | some q => if 0 < |q| then some |q| else none
    | none => none

/-- Lines 113-133: the `risk_preference` block, populated only when at least
one valid order size exists. -/
def mkRiskPreference (orders : List Order) : Option RiskPreference :=
  let order_sizes := validOrderSizes orders
  if order_sizes = [] then none
  else
    let large_orders := order_sizes.filter fun s => decide (10000 < s)
    let large_order_ratio := (large_orders.length : ℚ) / (order_sizes.length : ℚ) * 100
    let risk_score : ℤ := min 10 (max 1 (pyInt (large_order_ratio / 5 + 3)))
    some { avg_order_size := pyRound 2 (order_sizes.sum / (order_sizes.length : ℚ))
           max_order_size := listMaxQ order_sizes
           min_order_size := listMinQ order_sizes
           large_order_ratio := pyRound 2 large_order_ratio
           risk_score
           risk_level :=
             if 7 ≤ risk_score then "High Risk"
             else if 4 ≤ risk_score then "Medium Risk"
             else "Low Risk" }

/-- Lines 138-140: trading span in days, `(last - first).days or 1`
(`timedelta.days` floors the span in days; a zero span becomes 1). -/
def tradingDays (orders : List Order) : ℤ :=
  let ts := (parsedTimestamps orders).map fun t => t.epochSec
  let d := ⌊(listMaxQ ts - listMinQ ts) / 86400⌋
  if d = 0 then 1 else d

/-- Line 143: `daily_trades = len(filled_orders) / trading_days`. -/
def dailyTrades (orders : List Order) : ℚ :=
  ((filledOrders orders).length : ℚ) / (tradingDays orders : ℚ)

/-- Lines 146-151: consecutive gaps of the sorted timestamps, in minutes,
keeping only gaps strictly between 0 and 7 days. -/
def tradeIntervals (orders : List Order) : List ℚ :=
  let sorted_ts := sortQ ((parsedTimestamps orders).map fun t => t.epochSec)
  (gaps sorted_ts).filterMap fun g =>
    let interval := g / 60
    if 0 < interval ∧ interval < 60 * 24 * 7 then some interval else none

/-- Lines 136-164: the `trading_frequency` block (only reached with at least
two parsed timestamps). -/
def mkTradingFrequency (orders : List Order) : TradingFrequency :=
  let daily_trades := dailyTrades orders
  let intervals := tradeIntervals orders
  let avg_interval := if intervals = [] then 0 else intervals.sum / (intervals.length : ℚ)
  let frequency_score : ℤ := min 10 (max 1 (pyInt (daily_trades / 5)))
  { total_trading_days := tradingDays orders
    daily_avg_trades := pyRound 2 daily_trades
    avg_trade_interval_minutes := pyRound 2 avg_interval
    frequency_score
    frequency_level :=
      if 7 ≤ frequency_score then "High Frequency"
      else if 4 ≤ frequency_score then "Medium Frequency"
      else "Low Frequency" }

/-- Lines 168-172: `limit_ratio = limit / (limit + market) * 100`, 0 when the
denominator is 0. -/
def limitRatio (orders : List Order) : ℚ :=
  let order_types := orderTypeCounts orders
  let limit_orders := lookupD order_types "Limit" 0
  let market_orders := lookupD order_types "Market" 0
  let total_lm := limit_orders + market_orders
  if 0 < total_lm then (limit_orders : ℚ) / (total_lm : ℚ) * 100 else 0

/-- Line 178: `cancel_ratio = canceled / total * 100`, 0 when total is 0. -/
def cancelRatio (orders : List Order) : ℚ :=
  if 0 < orders.length then
    ((canceledOrders orders).length : ℚ) / (orders.length : ℚ) * 100
  else 0

/-- Lines 166-188: the `discipline_scores` block (always populated). -/
def mkDisciplineScores (orders : List Order) : DisciplineScores :=
  let limit_ratio := limitRatio orders
  let cancel_ratio := cancelRatio orders
  let discipline_score : ℤ := min 10 (max 1 (pyInt (limit_ratio / 10)))
  let patience_score : ℤ := min 10 (max 1 (pyInt (10 - cancel_ratio / 5)))
  { limit_order_ratio := pyRound 2 limit_ratio
    cancel_ratio := pyRound 2 cancel_ratio
    discipline_score
    patience_score
    discipline_level :=
      if 7 ≤ discipline_score then "Highly Disciplined"
      else if 4 ≤ discipline_score then "Moderately Disciplined"
      else "Needs Improvement"
    patience_level :=
      if 7 ≤ patience_score then "Very Patient"
      else if 4 ≤ patience_score then "Moderately Patient"
      else "Impulsive" }

/-- Line 191: wallet rows with `transactType == 'RealisedPNL'`. -/
def realisedPnlEntries (wallet_history : List WalletEntry) : List WalletEntry :=
  wallet_history.filter fun w => w.transactType == some "RealisedPNL"

/-- Lines 194-200: amounts of the RealisedPNL rows, divided by 100000000;
rows whose amount fails to convert are skipped. -/
def pnlAmounts (wallet_history : List WalletEntry) : List ℚ :=
  (realisedPnlEntries wallet_history).filterMap fun w =>
    w.amount.map fun a => a / 100000000

/-- Line 204: strictly positive PnL amounts. -/
def winningTrades (wallet_history : List WalletEntry) : List ℚ :=
  (pnlAmounts wallet_history).filter fun p => decide (0 < p)

/-- Line 205: strictly negative PnL amounts. -/
def losingTrades (wallet_history : List WalletEntry) : List ℚ :=
  (pnlAmounts wallet_history).filter fun p => decide (p < 0)

/-- Line 208: mean of the winning amounts, 0 when there are none. -/
def avgWin (wallet_history : List WalletEntry) : ℚ :=
  let winning := winningTrades wallet_history
  if winning = [] then 0 else winning.sum / (winning.length : ℚ)

/-- Line 209: absolute mean of the losing amounts, 0 when there are none. -/
def avgLoss (wallet_history : List WalletEntry) : ℚ :=
  let losing := losingTrades wallet_history
  if losing = [] then 0 else |losing.sum / (losing.length : ℚ)|

/-- Lines 190-223: the `pnl_analysis` group, created only when some
RealisedPNL row exists and some amount converts. -/
def mkPnlAnalysis (wallet_history : List WalletEntry) : Option PnlAnalysis :=
  if realisedPnlEntries wallet_history = [] then none
  else
    let pnl_amounts := pnlAmounts wallet_history
    if pnl_amounts = [] then none
    else
      let avg_win := avgWin wallet_history
      let avg_loss := avgLoss wallet_history
      some { total_pnl_btc := pyRound 8 pnl_amounts.sum
             total_trades := pnl_amounts.length
             winning_trades := (winningTrades wallet_history).length
             losing_trades := (losingTrades wallet_history).length
             win_rate :=
               pyRound 2 (((winningTrades wallet_history).length : ℚ) /
                 (pnl_amounts.length : ℚ) * 100)
             avg_win_btc := pyRound 8 avg_win
             avg_loss_btc := pyRound 8 avg_loss
             profit_factor :=
               if 0 < avg_loss then ProfitFactor.num (pyRound 2 (avg_win / avg_loss))
               else ProfitFactor.infty }

/-- Lines 230-242: the trader-type decision chain of the source. -/
def traderType (freq_level risk_level : String) : String :=
  if strContains freq_level "High" && strContains risk_level "High" then
    "Aggressive Day Trader"
  else if strContains freq_level "High" && strContains risk_level "Low" then
    "Conservative Day Trader"
  else if strContains freq_level "Low" && strContains risk_level "High" then
    "Bold Swing Trader"
  else if strContains freq_level "Low" && strContains risk_level "Low" then
    "Conservative Value Investor"
  else if strContains freq_level "Medium" then
    "Balanced Short-term Trader"
  else "Comprehensive Trader"

/-- Decision table written from the wording of the specification (section
4.7): rules evaluated in order, first match wins, used to compare the
source's chain against the documented table. -/
def traderTypeSpec (freq_level risk_level : String) : String :=
  if strContains freq_level "High" && strContains risk_level "High" then
    "Aggressive Day Trader"
  else if strContains freq_level "High" && strContains risk_level "Low" then
    "Conservative Day Trader"
  else if strContains freq_level "Low" && strContains risk_level "High" then
    "Bold Swing Trader"
  else if strContains freq_level "Low" && strContains risk_level "Low" then
    "Conservative Value Investor"
  else if strContains freq_level "Medium" then
    "Balanced Short-term Trader"
  else "Comprehensive Trader"

/-- Lines 225-261: the `summary` block.  `limit_ratio` and `daily_trades`
are the raw local variables the advice lines read (lines 257-258). -/
def mkSummary (risk_preference : Option RiskPreference)
    (trading_frequency : Option TradingFrequency)
    (discipline_scores : DisciplineScores)
    (limit_ratio daily_trades : ℚ) : Summary :=
  let risk_level := (risk_preference.map fun r => r.risk_level).getD "Unknown"
  let freq_level := (trading_frequency.map fun f => f.frequency_level).getD "Unknown"
  { trader_type := traderType freq_level risk_level
    risk_level
    frequency_level := freq_level
    discipline_level := discipline_scores.discipline_level
    overall_score :=
      pyRound 1 (((((risk_preference.map fun r => r.risk_score).getD 5 +
        (trading_frequency.map fun f => f.frequency_score).getD 5 +
        discipline_scores.discipline_score +
        discipline_scores.patience_score : ℤ)) : ℚ) / 4)
    advice :=
      [if 70 < limit_ratio then
          "Continue maintaining limit order trading habits to improve execution efficiency"
        else "Consider increasing limit order usage to reduce slippage costs",
        if daily_trades < 50 then "Trading rhythm is stable, maintain current strategy"
        else "Consider reducing trading frequency to improve quality per trade",
        if (risk_preference.map fun r => r.risk_score).getD 5 < 5 then
          "Risk control is good"
        else "Pay attention to controlling position sizes and diversifying risk"] }

/-- The profile assembled on the non-raising path (at least one filled order
and at least two parsed timestamps, so the frequency block has run and
`daily_trades` is bound). -/
def buildProfile (orders : List Order) (wallet_history : List WalletEntry) : Profile :=
  let risk_preference := mkRiskPreference orders
  let trading_frequency := some (mkTradingFrequency orders)
  let discipline_scores := mkDisciplineScores orders
  { basic_stats := mkBasicStats orders
    risk_preference
    trading_frequency
    discipline_scores
    trading_patterns := mkTradingPatterns (parsedTimestamps orders)
    pnl_analysis := mkPnlAnalysis wallet_history
    summary := mkSummary risk_preference trading_frequency discipline_scores
      (limitRatio orders) (dailyTrades orders) }

/-- Lines 39-263.  When no order is Filled, the local `timestamps` was never
bound and line 136 raises `NameError`; when fewer than two timestamps
parsed, the frequency block is skipped and line 258 raises `NameError` on
`daily_trades`.  Otherwise the full profile is returned.  The `executions`
argument is never read by the body. -/
def analyze_trader_profile (orders : List Order) (wallet_history : List WalletEntry)
    (executions : List Execution) : Except String Profile :=
  if filledOrders orders = [] then
    Except.error "NameError: timestamps referenced before assignment at line 136"
  else if (parsedTimestamps orders).length < 2 then
    Except.error "NameError: daily_trades referenced before assignment at line 258"
  else
    Except.ok (buildProfile orders wallet_history)

/-- Concrete parsed timestamp at epoch second 0. -/
def dtA : Dt := { epochSec := 0, hour := 0, wday := 0 }

/-- Concrete parsed timestamp 10 minutes after `dtA`. -/
def dtB : Dt := { epochSec := 600, hour := 0, wday := 0 }

/-- Filled limit order at `dtA` whose quantity fails to convert. -/
def exOrderA : Order :=
  { ordStatus := some "Filled", ordType := some "Limit", orderQty := none,
    timestamp := some dtA }

/-- Filled limit order at `dtB` whose quantity fails to convert. -/
def exOrderB : Order :=
  { ordStatus := some "Filled", ordType := some "Limit", orderQty := none,
    timestamp := some dtB }

/-- Filled limit order at `dtA` with quantity 100. -/
def exOrderC : Order :=
  { ordStatus := some "Filled", ordType := some "Limit", orderQty := some 100,
    timestamp := some dtA }

/-- Filled limit order at `dtB` with quantity 200. -/
def exOrderD : Order :=
  { ordStatus := some "Filled", ordType := some "Limit", orderQty := some 200,
    timestamp := some dtB }

/-- Filled order with no parseable timestamp. -/
def exOrderNoTs : Order :=
  { ordStatus := some "Filled", ordType := none, orderQty := none, timestamp := none }

/-- Wallet history with a single RealisedPNL row of amount exactly 0. -/
def exWalletZero : List WalletEntry :=
  [{ transactType := some "RealisedPNL", amount := some 0 }]

/-- Wallet history with one win of 1 BTC and one loss of 0.5 BTC
(amounts in satoshis). -/
def exWalletWinLoss : List WalletEntry :=
  [{ transactType := some "RealisedPNL", amount := some 100000000 },
   { transactType := some "RealisedPNL", amount := some (-50000000) }]

/-- The `pnl_analysis` row produced for `exWalletZero`. -/
def pnlZeroRow : PnlAnalysis :=
  { total_pnl_btc := 0, total_trades := 1, winning_trades := 0, losing_trades := 0,
    win_rate := 0, avg_win_btc := 0, avg_loss_btc := 0,
    profit_factor := ProfitFactor.infty }

theorem clamp_mem (x : ℤ) : 1 ≤ min 10 (max 1 x) ∧ min 10 (max 1 x) ≤ 10 := by
  omega

theorem roundHalfEven_int (n : ℤ) : roundHalfEven ((n : ℚ)) = n := by
  unfold roundHalfEven
  rw [Int.floor_intCast]
  norm_num

theorem pyRound_eq_self (d : ℕ) (q : ℚ) (n : ℤ) (h : q * 10 ^ d = (n : ℚ)) :
    pyRound d q = q := by
  unfold pyRound
  rw [h, roundHalfEven_int, ← h, mul_div_assoc, div_self (by positivity), mul_one]

theorem pyRound_zero (d : ℕ) : pyRound d 0 = 0 :=
  pyRound_eq_self d 0 0 (by norm_num)

theorem avgLoss_nonneg (wallet_history : List WalletEntry) :
    0 ≤ avgLoss wallet_history := by
  show 0 ≤ if losingTrades wallet_history = [] then (0 : ℚ)
    else |(losingTrades wallet_history).sum / ((losingTrades wallet_history).length : ℚ)|
  split
  · exact le_refl 0
  · exact abs_nonneg _

theorem analyze_ok_iff (orders : List Order) (w : List WalletEntry)
    (e : List Execution) (p : Profile) :
    analyze_trader_profile orders w e = Except.ok p ↔
      filledOrders orders ≠ [] ∧ 2 ≤ (parsedTimestamps orders).length ∧
        p = buildProfile orders w := by
  constructor
  · intro h
    unfold analyze_trader_profile at h
    split at h
    · exact absurd h (by simp)
    · split at h
      · exact absurd h (by simp)
      · next h1 h2 => exact ⟨h1, by omega, (Except.ok.inj h).symm⟩
  · rintro ⟨h1, h2, rfl⟩
    unfold analyze_trader_profile
    rw [if_neg h1, if_neg (by omega)]

theorem mkPnlAnalysis_exWalletZero : mkPnlAnalysis exWalletZero = some pnlZeroRow := by
  have hAm : pnlAmounts exWalletZero = [0] := by
    norm_num [pnlAmounts, realisedPnlEntries, exWalletZero, List.filterMap_cons]
  have hW : winningTrades exWalletZero = [] := by
    simp [winningTrades, hAm]
  have hL : losingTrades exWalletZero = [] := by
    simp [losingTrades, hAm]
  have hE : realisedPnlEntries exWalletZero ≠ [] := by
    simp [realisedPnlEntries, exWalletZero]
  have hAW : avgWin exWalletZero = 0 := by simp [avgWin, hW]
  have hAL : avgLoss exWalletZero = 0 := by simp [avgLoss, hL]
  simp only [mkPnlAnalysis]
  rw [if_neg hE, hAm]
  rw [if_neg (by simp)]
  rw [hAW, hAL]
  simp only [hW, hL]
  norm_num [pnlZeroRow, pyRound_zero]

/-- C1: the claim says `analyze_trader_profile` completes on every input, in
particular on an empty orders list or when fewer than two timestamps parse.
The code contradicts this: with no Filled order the local `timestamps` is
unbound when line 136 reads it, and with fewer than two parsed timestamps
the local `daily_trades` is unbound when line 258 reads it, so the function
raises `NameError` instead of returning a profile. -/
theorem analyzer_raises_on_degenerate_input :
    analyze_trader_profile [] [] [] =
      Except.error "NameError: timestamps referenced before assignment at line 136" ∧
    analyze_trader_profile [exOrderNoTs] [] [] =
      Except.error "NameError: daily_trades referenced before assignment at line 258" :=
  ⟨rfl, rfl⟩

/-- C3: the claim says that for the empty orders list the returned profile
has zeroed basic stats.  The basic-stats block (lines 54-70) does compute
exactly those zero values, but the function then raises `NameError` at line
136 and never returns them. -/
theorem empty_orders_zero_stats_but_raise :
    (mkBasicStats []).fill_rate = 0 ∧ (mkBasicStats []).total_orders = 0 ∧
    (mkBasicStats []).filled_orders = 0 ∧ (mkBasicStats []).canceled_orders = 0 ∧
    (mkBasicStats []).order_types = [] ∧
    analyze_trader_profile [] [] [] =
      Except.error "NameError: timestamps referenced before assignment at line 136" :=
  ⟨rfl, rfl, rfl, rfl, rfl, rfl⟩

/-- C2 counterexample: two filled orders with parseable timestamps but
unconvertible quantities leave the risk group's minimum sample count unmet,
yet the returned profile still has the key "risk_preference" present
(mapping to the initial empty sub-dict), contradicting the claim that the
key is absent. -/
theorem risk_key_present_when_unmet :
    validOrderSizes [exOrderA, exOrderB] = [] ∧
    analyze_trader_profile [exOrderA, exOrderB] [] [] =
      Except.ok (buildProfile [exOrderA, exOrderB] []) ∧
    "risk_preference" ∈ profileKeys (buildProfile [exOrderA, exOrderB] []) :=
  ⟨rfl, rfl, by decide⟩

/-- C2 amended: when the risk group's minimum sample count is unmet on a
returning run, the `risk_preference` key stays present but maps to the
empty group with no placeholder values; and a run on which the
trading-frequency or trading-patterns minimum is unmet (fewer than two
parsed timestamps) never returns a profile at all, because the function
raises `NameError`. -/
theorem unmet_groups_disposition :
    (∀ orders w e p, analyze_trader_profile orders w e = Except.ok p →
      validOrderSizes orders = [] →
      p.risk_preference = none ∧ "risk_preference" ∈ profileKeys p) ∧
    (∀ orders w e p, (parsedTimestamps orders).length < 2 →
      analyze_trader_profile orders w e ≠ Except.ok p) := by
  constructor
  · intro orders w e p h hs
    obtain ⟨-, -, rfl⟩ := (analyze_ok_iff orders w e p).mp h
    constructor
    · show mkRiskPreference orders = none
      simp [mkRiskPreference, hs]
    · simp [profileKeys]
  · intro orders w e p hlen h
    obtain ⟨-, h2, -⟩ := (analyze_ok_iff orders w e p).mp h
    omega

/-- Witness for the amended C2 at a concrete input. -/
theorem unmet_groups_disposition_witness :
    (buildProfile [exOrderA, exOrderB] []).risk_preference = none ∧
    "risk_preference" ∈ profileKeys (buildProfile [exOrderA, exOrderB] []) :=
  unmet_groups_disposition.1 [exOrderA, exOrderB] [] [] _ rfl rfl

/-- C4: every risk, frequency, discipline and patience score that appears in
a returned profile is an integer clamped into the closed range 1..10. -/
theorem scores_within_range (orders : List Order) (w : List WalletEntry)
    (e : List Execution) (p : Profile)
    (h : analyze_trader_profile orders w e = Except.ok p) :
    (∀ rp, p.risk_preference = some rp → 1 ≤ rp.risk_score ∧ rp.risk_score ≤ 10) ∧
    (∀ tf, p.trading_frequency = some tf →
      1 ≤ tf.frequency_score ∧ tf.frequency_score ≤ 10) ∧
    (1 ≤ p.discipline_scores.discipline_score ∧
      p.discipline_scores.discipline_score ≤ 10) ∧
    (1 ≤ p.discipline_scores.patience_score ∧
      p.discipline_scores.patience_score ≤ 10) := by
  obtain ⟨-, -, rfl⟩ := (analyze_ok_iff orders w e p).mp h
  refine ⟨?_, ?_, ?_, ?_⟩
  · intro rp hrp
    have hrp' : mkRiskPreference orders = some rp := hrp
    by_cases hs : validOrderSizes orders = []
    · simp [mkRiskPreference, hs] at hrp'
    · simp only [mkRiskPreference] at hrp'
      rw [if_neg hs, Option.some.injEq] at hrp'
      subst hrp'
      exact clamp_mem _
  · intro tf htf
    have htf' : some (mkTradingFrequency orders) = some tf := htf
    rw [Option.some.injEq] at htf'
    subst htf'
    exact clamp_mem _
  · exact clamp_mem _
  · exact clamp_mem _

/-- Witness for C4 at a concrete returning input. -/
theorem scores_within_range_witness :
    1 ≤ (buildProfile [exOrderC, exOrderD] []).discipline_scores.discipline_score ∧
    (buildProfile [exOrderC, exOrderD] []).discipline_scores.discipline_score ≤ 10 :=
  (scores_within_range [exOrderC, exOrderD] [] [] _ rfl).2.2.1

/-- C5: in every returned profile, `summary.trader_type` agrees with the
decision table of the specification applied to the summary's frequency and
risk levels, and those levels default to "Unknown" exactly when their metric
group is missing. -/
theorem trader_type_decision_table (orders : List Order) (w : List WalletEntry)
    (e : List Execution) (p : Profile)
    (h : analyze_trader_profile orders w e = Except.ok p) :
    p.summary.trader_type =
      traderTypeSpec p.summary.frequency_level p.summary.risk_level ∧
    p.summary.risk_level =
      (p.risk_preference.map fun r => r.risk_level).getD "Unknown" ∧
    p.summary.frequency_level =
      (p.trading_frequency.map fun f => f.frequency_level).getD "Unknown" := by
  obtain ⟨-, -, rfl⟩ := (analyze_ok_iff orders w e p).mp h
  exact ⟨rfl, rfl, rfl⟩

/-- Witness for C5 at a concrete returning input. -/
theorem trader_type_decision_table_witness :
    (buildProfile [exOrderC, exOrderD] []).summary.trader_type =
      traderTypeSpec (buildProfile [exOrderC, exOrderD] []).summary.frequency_level
        (buildProfile [exOrderC, exOrderD] []).summary.risk_level :=
  (trader_type_decision_table [exOrderC, exOrderD] [] [] _ rfl).1

/-- C6 counterexample: a wallet whose only RealisedPNL row has amount 0
produces a pnl group whose `profit_factor` is the infinity sentinel although
`avg_win` is not positive, contradicting the claim that the sentinel occurs
exactly when `avg_loss = 0` and `avg_win > 0` (and that otherwise the value
is a finite ratio). -/
theorem profit_factor_sentinel_without_any_win :
    analyze_trader_profile [exOrderA, exOrderB] exWalletZero [] =
      Except.ok (buildProfile [exOrderA, exOrderB] exWalletZero) ∧
    (buildProfile [exOrderA, exOrderB] exWalletZero).pnl_analysis = some pnlZeroRow ∧
    pnlZeroRow.profit_factor = ProfitFactor.infty ∧
    ¬ 0 < avgWin exWalletZero ∧ avgLoss exWalletZero = 0 := by
  refine ⟨rfl, mkPnlAnalysis_exWalletZero, rfl, ?_, ?_⟩
  · have hAW : avgWin exWalletZero = 0 := by
      norm_num [avgWin, winningTrades, pnlAmounts, realisedPnlEntries, exWalletZero,
        List.filterMap_cons]
    rw [hAW]
    norm_num
  · norm_num [avgLoss, losingTrades, pnlAmounts, realisedPnlEntries, exWalletZero,
      List.filterMap_cons]

/-- C6 amended: whenever the pnl group is produced, `profit_factor` is the
infinity sentinel exactly when `avg_loss` computes to 0 (regardless of
`avg_win`), and otherwise equals `round(avg_win / avg_loss, 2)`. -/
theorem profit_factor_disposition (orders : List Order) (w : List WalletEntry)
    (e : List Execution) (p : Profile) (pnl : PnlAnalysis)
    (h : analyze_trader_profile orders w e = Except.ok p)
    (hp : p.pnl_analysis = some pnl) :
    (pnl.profit_factor = ProfitFactor.infty ↔ avgLoss w = 0) ∧
    (avgLoss w ≠ 0 →
      pnl.profit_factor = ProfitFactor.num (pyRound 2 (avgWin w / avgLoss w))) := by
  obtain ⟨-, -, rfl⟩ := (analyze_ok_iff orders w e p).mp h
  have hp' : mkPnlAnalysis w = some pnl := hp
  by_cases he : realisedPnlEntries w = []
  · simp [mkPnlAnalysis, he] at hp'
  · by_cases ha : pnlAmounts w = []
    · simp [mkPnlAnalysis, he, ha] at hp'
    · simp only [mkPnlAnalysis] at hp'
      rw [if_neg he, if_neg ha, Option.some.injEq] at hp'
      subst hp'
      by_cases hl : 0 < avgLoss w
      · have hne : avgLoss w ≠ 0 := ne_of_gt hl
        constructor
        · show (if 0 < avgLoss w then
              ProfitFactor.num (pyRound 2 (avgWin w / avgLoss w))
            else ProfitFactor.infty) = ProfitFactor.infty ↔ avgLoss w = 0
          rw [if_pos hl]
          simp [hne]
        · intro _
          show (if 0 < avgLoss w then
              ProfitFactor.num (pyRound 2 (avgWin w / avgLoss w))
            else ProfitFactor.infty) = ProfitFactor.num (pyRound 2 (avgWin w / avgLoss w))
          rw [if_pos hl]
      · have h0 : avgLoss w = 0 :=
          le_antisymm (not_lt.mp hl) (avgLoss_nonneg w)
        constructor
        · show (if 0 < avgLoss w then
              ProfitFactor.num (pyRound 2 (avgWin w / avgLoss w))
            else ProfitFactor.infty) = ProfitFactor.infty ↔ avgLoss w = 0
          rw [if_neg hl]
          simp [h0]
        · intro hne
          exact absurd h0 hne

/-- Witness for the amended C6 at a concrete input. -/
theorem profit_factor_disposition_witness :
    (pnlZeroRow.profit_factor = ProfitFactor.infty ↔ avgLoss exWalletZero = 0) ∧
    (avgLoss exWalletZero ≠ 0 →
      pnlZeroRow.profit_factor =
        ProfitFactor.num (pyRound 2 (avgWin exWalletZero / avgLoss exWalletZero))) :=
  profit_factor_disposition [exOrderA, exOrderB] exWalletZero [] _ pnlZeroRow rfl
    mkPnlAnalysis_exWalletZero

/-- C7: a returned profile of a run whose wallet history has no RealisedPNL
row does not contain the `pnl_analysis` key at all. -/
theorem pnl_key_absent (orders : List Order) (w : List WalletEntry)
    (e : List Execution) (p : Profile)
    (h : analyze_trader_profile orders w e = Except.ok p)
    (hw : realisedPnlEntries w = []) :
    p.pnl_analysis = none ∧ "pnl_analysis" ∉ profileKeys p := by
  obtain ⟨-, -, rfl⟩ := (analyze_ok_iff orders w e p).mp h
  have hnone : mkPnlAnalysis w = none := by simp [mkPnlAnalysis, hw]
  refine ⟨hnone, ?_⟩
  show "pnl_analysis" ∉ profileKeys (buildProfile orders w)
  simp [profileKeys, show (buildProfile orders w).pnl_analysis = mkPnlAnalysis w from rfl,
    hnone]

/-- Witness for C7 at a concrete returning input with an empty wallet. -/
theorem pnl_key_absent_witness :
    (buildProfile [exOrderC, exOrderD] []).pnl_analysis = none ∧
    "pnl_analysis" ∉ profileKeys (buildProfile [exOrderC, exOrderD] []) :=
  pnl_key_absent [exOrderC, exOrderD] [] [] _ rfl rfl

/-- C8: on an orders list of exactly two filled orders with parseable
timestamps 10 minutes apart, the analysis returns and reports one trading
day and a 10-minute average trade interval. -/
theorem freq_of_two_filled_ten_minutes (o1 o2 : Order) (t1 t2 : Dt)
    (w : List WalletEntry) (e : List Execution)
    (h1 : o1.ordStatus = some "Filled") (h2 : o2.ordStatus = some "Filled")
    (ht1 : o1.timestamp = some t1) (ht2 : o2.timestamp = some t2)
    (hgap : t2.epochSec = t1.epochSec + 600) :
    analyze_trader_profile [o1, o2] w e = Except.ok (buildProfile [o1, o2] w) ∧
    ((buildProfile [o1, o2] w).trading_frequency.map fun f =>
      (f.total_trading_days, f.avg_trade_interval_minutes)) = some (1, 10) := by
  have hfil : filledOrders [o1, o2] = [o1, o2] := by
    simp [filledOrders, List.filter, h1, h2]
  have hts : parsedTimestamps [o1, o2] = [t1, t2] := by
    simp [parsedTimestamps, hfil, ht1, ht2]
  have hmax : listMaxQ [t1.epochSec, t2.epochSec] = t1.epochSec + 600 := by
    simp only [listMaxQ, List.foldl_cons, List.foldl_nil, hgap]
    exact max_eq_right (by linarith)
  have hmin : listMinQ [t1.epochSec, t2.epochSec] = t1.epochSec := by
    simp only [listMinQ, List.foldl_cons, List.foldl_nil, hgap]
    exact min_eq_left (by linarith)
  have hdays : tradingDays [o1, o2] = 1 := by
    simp only [tradingDays, hts, List.map_cons, List.map_nil, hmax, hmin]
    rw [show t1.epochSec + 600 - t1.epochSec = 600 by ring]
    norm_num [Int.floor_eq_zero_iff, Set.mem_Ico]
  have hsort : sortQ [t1.epochSec, t2.epochSec] = [t1.epochSec, t2.epochSec] := by
    simp only [sortQ, List.foldr_cons, List.foldr_nil, insertSorted]
    rw [if_pos (by rw [hgap]; linarith)]
  have hint : tradeIntervals [o1, o2] = [10] := by
    simp only [tradeIntervals, hts, List.map_cons, List.map_nil, hsort, gaps]
    rw [show t2.epochSec - t1.epochSec = 600 by rw [hgap]; ring]
    norm_num [List.filterMap_cons]
  refine ⟨?_, ?_⟩
  · rw [analyze_trader_profile, if_neg (by rw [hfil]; simp),
      if_neg (by rw [hts]; simp)]
  · show some ((mkTradingFrequency [o1, o2]).total_trading_days,
      (mkTradingFrequency [o1, o2]).avg_trade_interval_minutes) = some (1, 10)
    rw [Option.some.injEq, Prod.mk.injEq]
    constructor
    · exact hdays
    · show pyRound 2 (if tradeIntervals [o1, o2] = [] then 0
        else (tradeIntervals [o1, o2]).sum / ((tradeIntervals [o1, o2]).length : ℚ)) = 10
      rw [hint]
      norm_num
      exact pyRound_eq_self 2 10 1000 (by norm_num)

/-- Witness for C8 at a concrete pair of orders 600 seconds apart. -/
theorem freq_of_two_filled_ten_minutes_witness :
    analyze_trader_profile [exOrderC, exOrderD] [] [] =
      Except.ok (buildProfile [exOrderC, exOrderD] []) ∧
    ((buildProfile [exOrderC, exOrderD] []).trading_frequency.map fun f =>
      (f.total_trading_days, f.avg_trade_interval_minutes)) = some (1, 10) :=
  freq_of_two_filled_ten_minutes exOrderC exOrderD dtA dtB [] [] rfl rfl rfl rfl
    (by norm_num [dtA, dtB])

/-- C9: the analysis never reads the executions argument, so two runs that
differ only in the executions input (and in particular two identical runs)
return the same result. -/
theorem analyzer_independent_of_executions (orders : List Order)
    (w : List WalletEntry) (e1 e2 : List Execution) :
    analyze_trader_profile orders w e1 = analyze_trader_profile orders w e2 := rfl

theorem bump_snd_sum {α : Type} [DecidableEq α] (l : List (α × ℕ)) (k : α) :
    ((bump l k).map Prod.snd).sum = (l.map Prod.snd).sum + 1 := by
  induction l with
  | nil => simp [bump]
  | cons kv rest ih =>
    obtain ⟨k', n⟩ := kv
    by_cases hk : k = k'
    · simp [bump, hk]
      omega
    · simp [bump, hk, ih]
      omega

theorem foldl_bump_snd_sum {α : Type} [DecidableEq α] :
    ∀ (ks : List α) (acc : List (α × ℕ)),
      ((ks.foldl bump acc).map Prod.snd).sum = (acc.map Prod.snd).sum + ks.length := by
  intro ks
  induction ks with
  | nil => intro acc; simp
  | cons k ks ih =>
    intro acc
    rw [List.foldl_cons, ih (bump acc k), bump_snd_sum]
    simp
    omega

theorem countKeys_snd_sum {α : Type} [DecidableEq α] (ks : List α) :
    ((countKeys ks).map Prod.snd).sum = ks.length := by
  simpa using foldl_bump_snd_sum ks []

theorem length_filter_two_le {α : Type} (l : List α) (p q : α → Bool)
    (h : ∀ x, p x = true → q x = false) :
    (l.filter p).length + (l.filter q).length ≤ l.length := by
  induction l with
  | nil => simp
  | cons a l ih =>
    by_cases hp : p a
    · have hq := h a hp
      simp [List.filter_cons, hp, hq]
      omega
    · by_cases hq : q a <;> simp [List.filter_cons, hp, hq] <;> omega

/-- C10: in every returned profile the per-type order counts sum to the
total order count, and filled plus canceled orders never exceed the total. -/
theorem basic_stats_invariants (orders : List Order) (w : List WalletEntry)
    (e : List Execution) (p : Profile)
    (h : analyze_trader_profile orders w e = Except.ok p) :
    (p.basic_stats.order_types.map Prod.snd).sum = p.basic_stats.total_orders ∧
    p.basic_stats.filled_orders + p.basic_stats.canceled_orders ≤
      p.basic_stats.total_orders := by
  obtain ⟨-, -, rfl⟩ := (analyze_ok_iff orders w e p).mp h
  constructor
  · show ((orderTypeCounts orders).map Prod.snd).sum = orders.length
    rw [orderTypeCounts, countKeys_snd_sum, List.length_map]
  · show (filledOrders orders).length + (canceledOrders orders).length ≤ orders.length
    refine length_filter_two_le orders _ _ ?_
    intro o hf
    simp only [beq_iff_eq] at hf ⊢
    rw [hf]
    simp

/-- Witness for C10 at a concrete returning input. -/
theorem basic_stats_invariants_witness :
    ((buildProfile [exOrderC, exOrderD] []).basic_stats.order_types.map Prod.snd).sum =
      (buildProfile [exOrderC, exOrderD] []).basic_stats.total_orders ∧
    (buildProfile [exOrderC, exOrderD] []).basic_stats.filled_orders +
      (buildProfile [exOrderC, exOrderD] []).basic_stats.canceled_orders ≤
      (buildProfile [exOrderC, exOrderD] []).basic_stats.total_orders :=
  basic_stats_invariants [exOrderC, exOrderD] [] [] _ rfl

end TraderAnalyzer
